import Mathlib

/-!
Shallow embedding of the `/send-email` contact-form service.

The repository has two variants of the route handler:
* `src/unnamed/part_000` — the stricter variant: requires `phone`, has an
  explicit type check, and sends an optional user-confirmation message;
  modelled here as `handleSendEmail`.
* `src/index.js` — the plain variant: four required fields, no type check,
  the confirmation block is commented out; modelled as `handleSendEmailIdx`.

External collaborators (the mail transport and the EJS template renderer)
are parameters of the handlers: the transport is a function from mail
options to a send outcome, the renderer a function from template data to
an optional HTML string (`none` = the renderer threw).  The handlers
return the HTTP response together with the list of send attempts, in
order, so that "no mail is sent" and "exactly one message" are statable.

Strings are modelled as sequences of characters (JS indexes UTF-16 units;
no claim depends on the difference).  `substring(0, n)` is `substring0`.
-/

/-- JS runtime values, as far as the handler's validation observes them:
strings, and the non-string shapes the validation distinguishes
(numbers, booleans, objects, arrays, null, undefined).  An absent body
field reads as `vundefined`. -/
inductive JsValue where
  | vstr (s : String)
  | vnum (n : Int)
  | vbool (b : Bool)
  | vobj
  | varr
  | vnull
  | vundefined
  deriving DecidableEq

/-- JS truthiness of a `JsValue` (`!v` in the source is `!truthy v`).
The empty string, `0`, `false`, `null` and `undefined` are falsy;
objects and arrays are truthy. -/
def truthy : JsValue → Bool
  | .vstr s => !(s == "")
  | .vnum n => !(n == 0)
  | .vbool b => b
  | .vobj => true
  | .varr => true
  | .vnull => false
  | .vundefined => false

/-- `typeof v === 'string'`. -/
def isString : JsValue → Bool
  | .vstr _ => true
  | _ => false

/-- The string payload of a string value (only used under `isString`). -/
def asString : JsValue → String
  | .vstr s => s
  | _ => ""

/-- JS string coercion `String(v)`, as applied by `regex.test(v)` on a
non-string argument.  `varr` stands for the empty array (`String([]) = ""`). -/
def jsToString : JsValue → String
  | .vstr s => s
  | .vnum n => toString n
  | .vbool b => if b then "true" else "false"
  | .vobj => "[object Object]"
  | .varr => ""
  | .vnull => "null"
  | .vundefined => "undefined"

/-- The character class `\s` of JS regexes (whitespace). -/
def jsSpace (c : Char) : Bool :=
  c == ' ' || c == '\t' || c == '\n' || c == '\r' || c == '\x0b' || c == '\x0c' ||
  c == '\u00A0' || c == '\u1680' || ('\u2000' ≤ c && c ≤ '\u200A') ||
  c == '\u2028' || c == '\u2029' || c == '\u202F' || c == '\u205F' ||
  c == '\u3000' || c == '\uFEFF'

/-- A character matched by `[^\s@]`. -/
def emailAtomChar (c : Char) : Bool := !jsSpace c && !(c == '@')

/-- A nonempty run of `[^\s@]` characters, i.e. a match of `[^\s@]+`. -/
def emailAtomL (l : List Char) : Bool := !l.isEmpty && l.all emailAtomChar

/-- A match of `[^\s@]+\.[^\s@]+`: all characters in `[^\s@]`, with a dot
that is neither the first nor the last character. -/
def emailDomainL (l : List Char) : Bool :=
  emailAtomL l && ((l.drop 1).dropLast.any (fun c => c == '.'))

/-- Split a character list at every `'@'`. -/
def splitAtSign : List Char → List (List Char)
  | [] => [[]]
  | c :: cs =>
    let r := splitAtSign cs
    if c == '@' then [] :: r
    else
      match r with
      | [] => [[c]]
      | h :: t => (c :: h) :: t

/-- `emailRegex.test(s)` for `emailRegex = /^[^\s@]+@[^\s@]+\.[^\s@]+$/`:
the string is `local@domain` with exactly one `@`, a nonempty `local`
over `[^\s@]`, and a `domain` matching `[^\s@]+\.[^\s@]+`. -/
def emailRegexTest (s : String) : Bool :=
  match splitAtSign s.data with
  | [loc, dom] => emailAtomL loc && emailDomainL dom
  | _ => false

/-- JS `s.substring(0, n)`: the first `n` characters of `s`. -/
def substring0 (s : String) (n : Nat) : String := String.mk (s.data.take n)

/-- A composed outgoing email, as handed to `transporter.sendMail`.
`headers` is the (possibly absent, then empty) extra-header list. -/
structure MailOptions where
  from_ : String
  toAddr : String
  replyTo : Option String
  subject : String
  text : String
  html : String
  headers : List (String × String)
  deriving DecidableEq

/-- Outcome of one transport attempt: delivered, or the transport threw
with the given error message. -/
inductive SendOutcome where
  | ok
  | err (msg : String)
  deriving DecidableEq

/-- The record returned by `sendEmail`. -/
structure SendResult where
  success : Bool
  error : Option String
  deriving DecidableEq

/-- `sendEmail` from both variants: awaits the transport, returns
`{success: true}` on delivery and `{success: false, error: msg}` when the
transport throws; it never rethrows. -/
def sendEmail (transport : MailOptions → SendOutcome) (opts : MailOptions) : SendResult :=
  match transport opts with
  | .ok => ⟨true, none⟩
  | .err msg => ⟨false, some msg⟩

/-- The JSON body of an HTTP response: status code, `success` flag, and
the optional `error` / `message` fields. -/
structure Response where
  status : Nat
  success : Bool
  error : Option String
  message : Option String
  deriving DecidableEq

/-- Environment configuration of the strict variant; startup validation
(`requiredEnvVars`) guarantees both are set and nonempty. -/
structure EnvCfg where
  emailUsername : String
  adminEmail : String
  deriving DecidableEq

/-- Request body of the strict variant (`{to, subject, name, message, phone}`). -/
structure ReqBody where
  toAddr : JsValue
  subject : JsValue
  name : JsValue
  message : JsValue
  phone : JsValue
  deriving DecidableEq

/-- Data passed to `renderTemplate('welcome', …)` by the strict variant. -/
structure TemplateData where
  subject : String
  mobile : String
  email : String
  name : String
  year : Nat
  companyName : String
  message : String
  deriving DecidableEq

/-- `renderTemplate`: calls the renderer and maps a throw to the fixed
error `Failed to render email template`. -/
def renderTemplate (render : TemplateData → Option String) (d : TemplateData) :
    Except String String :=
  match render d with
  | some html => .ok html
  | none => .error ("Failed to render email template")

/-- The `welcome`-template data built by the strict handler: sanitized
subject/name/message, raw phone and `to`, the current year and the
company-name constant. -/
def adminTemplateData (year : Nat) (toAddr subject name message phone : String) :
    TemplateData :=
  { subject := substring0 subject 100
    mobile := phone
    email := toAddr
    name := substring0 name 50
    year := year
    companyName := "Lucid Petro Chemical"
    message := substring0 message 2000 }

/-- The plain-text body of the admin notification (strict variant). -/
def adminTextOf (toAddr subject name message : String) : String :=
  "New message from " ++ substring0 name 50 ++ " (" ++ toAddr ++ ")\n\n" ++
  "Subject: " ++ substring0 subject 100 ++ "\n\n" ++
  substring0 message 2000 ++ "\n\n" ++
  "---\nThis message was sent via your website contact form"

/-- `adminMailOptions` of the strict variant: fixed sender identity, the
configured admin recipient, the submitter as reply-to, a prefixed subject,
and the elevated-priority headers. -/
def mkAdminMailOptions (cfg : EnvCfg) (adminHtml : String)
    (toAddr subject name message : String) : MailOptions :=
  { from_ := "\"Lucid Petro Chemical\" <" ++ cfg.emailUsername ++ ">"
    toAddr := cfg.adminEmail
    replyTo := some ("\"" ++ substring0 name 50 ++ "\" <" ++ toAddr ++ ">")
    subject := "New Inquiry: " ++ substring0 subject 100
    text := adminTextOf toAddr subject name message
    html := adminHtml
    headers := [("X-Priority", "1"), ("X-MSMail-Priority", "High")] }

/-- `emailTemplates.confirmationEmail(name, subject)`: the inline HTML of
the user-confirmation message. -/
def confirmationEmail (name subject : String) : String :=
  "\n    <div style=\"font-family: Arial, sans-serif; padding: 20px; background-color: #f9f9f9;\">\n" ++
  "      <div style=\"max-width: 600px; background: white; padding: 20px; border-radius: 10px; box-shadow: 0 3px 12px rgba(0,0,0,0.1);\">\n" ++
  "        <h2 style=\"color: #007BFF; text-align: center;\">Thank you, " ++ name ++ "!</h2>\n" ++
  "        <p>We\x27ve received your inquiry about \"" ++ subject ++ "\" and will respond within 24 hours.</p>\n" ++
  "        <p style=\"margin-top: 20px;\">Best regards,<br>Lucid Petro Chemical Team</p>\n" ++
  "      </div>\n    </div>\n  "

/-- The plain-text body of the user-confirmation message (strict variant). -/
def userTextOf (subject name : String) : String :=
  "Dear " ++ substring0 name 50 ++ ",\n\nThank you for your message about \"" ++
  substring0 subject 100 ++
  "\". We\x27ve received your inquiry and will respond within 24 hours.\n\nBest regards,\nLucid Petro Chemical Team"

/-- `userMailOptions` of the strict variant: no reply-to and no extra
headers. -/
def mkUserMailOptions (cfg : EnvCfg) (toAddr subject name : String) : MailOptions :=
  { from_ := "\"Lucid Petro Chemical\" <" ++ cfg.emailUsername ++ ">"
    toAddr := toAddr
    replyTo := none
    subject := "We\x27ve received your message about " ++ substring0 subject 100
    text := userTextOf subject name
    html := confirmationEmail (substring0 name 50) (substring0 subject 100)
    headers := [] }

/-- The `POST /send-email` handler of `src/unnamed/part_000`.  Returns the
response and the list of send attempts in order. -/
def handleSendEmail (cfg : EnvCfg) (render : TemplateData → Option String)
    (year : Nat) (transport : MailOptions → SendOutcome) (b : ReqBody) :
    Response × List MailOptions :=
  if !truthy b.toAddr || !truthy b.subject || !truthy b.name || !truthy b.message
      || !truthy b.phone then
    (⟨400, false, some ("All fields are required: recipient email, subject, name, and message"), none⟩, [])
  else if !isString b.toAddr || !isString b.subject || !isString b.name
      || !isString b.message || !isString b.phone then
    (⟨400, false, some ("Invalid input types"), none⟩, [])
  else
    let toAddr := asString b.toAddr
    let subject := asString b.subject
    let name := asString b.name
    let message := asString b.message
    let phone := asString b.phone
    if !emailRegexTest toAddr then
      (⟨400, false, some ("Please provide a valid email address"), none⟩, [])
    else
      match renderTemplate render (adminTemplateData year toAddr subject name message phone) with
      | .error msg => (⟨500, false, some msg, none⟩, [])
      | .ok adminHtml =>
        let adminMail := mkAdminMailOptions cfg adminHtml toAddr subject name message
        let adminResult := sendEmail transport adminMail
        if !adminResult.success then
          (⟨500, false, some ("Failed to send email to admin"), none⟩, [adminMail])
        else
          let sent :=
            if toAddr != cfg.adminEmail then
              [adminMail, mkUserMailOptions cfg toAddr subject name]
            else
              [adminMail]
          (⟨200, true, none, some ("Your message has been sent successfully")⟩, sent)

/-- A convenient all-string request body for the strict variant. -/
def mkBody (toAddr subject name message phone : String) : ReqBody :=
  ⟨.vstr toAddr, .vstr subject, .vstr name, .vstr message, .vstr phone⟩

/-- Environment configuration of the plain variant (`src/index.js`): no
startup validation, so `ADMIN_EMAIL` may be absent. -/
structure EnvCfgIdx where
  emailUsername : String
  adminEmail : Option String
  deriving DecidableEq

/-- Request body of the plain variant (`{to, subject, name, message}`). -/
structure ReqBodyIdx where
  toAddr : JsValue
  subject : JsValue
  name : JsValue
  message : JsValue
  deriving DecidableEq

/-- Data passed to `renderTemplate('welcome', …)` by the plain variant. -/
structure TemplateDataIdx where
  subject : String
  name : String
  year : Nat
  companyName : String
  message : String
  deriving DecidableEq

/-- `renderTemplate` of the plain variant. -/
def renderTemplateIdx (render : TemplateDataIdx → Option String)
    (d : TemplateDataIdx) : Except String String :=
  match render d with
  | some html => .ok html
  | none => .error ("Failed to render email template")

/-- JS `a || b` on `process.env.ADMIN_EMAIL || to`: an absent or empty
admin address falls back to the submitted `to`. -/
def envOr (a : Option String) (b : String) : String :=
  match a with
  | some s => if s == "" then b else s
  | none => b

/-- The plain-text body of the message of the plain variant. -/
def idxTextOf (toAddr subject name message : String) : String :=
  "New message from " ++ substring0 name 50 ++ " (" ++ toAddr ++ ")\n\n" ++
  "Subject: " ++ substring0 subject 100 ++ "\n\n" ++
  substring0 message 2000 ++ "\n\n" ++
  "---\nThis message was sent via your website contact form"

/-- `mailOptions` of the plain variant: recipient is
`process.env.ADMIN_EMAIL || to` (falls back to the submitter when no
admin address is configured), reply-to is the submitter, and the
elevated-priority headers are present. -/
def mkMailOptionsIdx (cfg : EnvCfgIdx) (html toAddr subject name message : String) :
    MailOptions :=
  { from_ := "\"Website Contact\" <" ++ cfg.emailUsername ++ ">"
    toAddr := envOr cfg.adminEmail toAddr
    replyTo := some toAddr
    subject := "Website Contact: " ++ substring0 subject 100
    text := idxTextOf toAddr subject name message
    html := html
    headers := [("X-Priority", "1"), ("X-MSMail-Priority", "High")] }

/-- Result of one request against the plain handler: a response together
with the send attempts, or an uncaught exception (the handler is an async
function whose throw before the `try` block produces no response at all). -/
inductive HandlerOutcome where
  | responded (resp : Response) (sent : List MailOptions)
  | crashed (sent : List MailOptions)
  deriving DecidableEq

/-- The `POST /send-email` handler of `src/index.js`.  No type check:
`subject.substring` on a non-string throws a `TypeError` outside the
`try` block, so no response is produced (`crashed`).  The regex test
coerces a non-string `to` with `jsToString`. -/
def handleSendEmailIdx (cfg : EnvCfgIdx) (render : TemplateDataIdx → Option String)
    (year : Nat) (transport : MailOptions → SendOutcome) (b : ReqBodyIdx) :
    HandlerOutcome :=
  if !truthy b.toAddr || !truthy b.subject || !truthy b.name || !truthy b.message then
    .responded ⟨400, false, some ("All fields are required: recipient email, subject, name, and message"), none⟩ []
  else if !emailRegexTest (jsToString b.toAddr) then
    .responded ⟨400, false, some ("Please provide a valid email address"), none⟩ []
  else if !isString b.subject || !isString b.name || !isString b.message then
    .crashed []
  else
    let toAddr := jsToString b.toAddr
    let subject := asString b.subject
    let name := asString b.name
    let message := asString b.message
    match renderTemplateIdx render
        ⟨substring0 subject 100, substring0 name 50, year, "Your Company",
         substring0 message 2000⟩ with
    | .error msg => .responded ⟨500, false, some msg, none⟩ []
    | .ok html =>
      let mailOptions := mkMailOptionsIdx cfg html toAddr subject name message
      let result := sendEmail transport mailOptions
      if !result.success then
        .responded ⟨500, false, some ("Failed to send email. Please try again later."), none⟩ [mailOptions]
      else
        .responded ⟨200, true, none, some ("Your message has been sent successfully")⟩ [mailOptions]

/-- An all-string request body for the plain variant. -/
def mkBodyIdx (toAddr subject name message : String) : ReqBodyIdx :=
  ⟨.vstr toAddr, .vstr subject, .vstr name, .vstr message⟩


/-- The first `n` characters are at most `n` characters. -/
theorem substring0_length_le (s : String) (n : Nat) : (substring0 s n).length ≤ n := by
  simp only [substring0, String.length, List.length_take]
  omega

/-- Characterization of the strict handler on a request that passes all
validation and whose template renders: the admin message is sent first;
on transport failure the handler responds 500 after that single attempt,
on success it responds 200, adding the user confirmation exactly when the
submitter differs from the admin address. -/
theorem handleSendEmail_accepted (cfg : EnvCfg) (render : TemplateData → Option String)
    (year : Nat) (transport : MailOptions → SendOutcome)
    (toAddr subject name message phone html : String)
    (hto : toAddr ≠ "") (hsub : subject ≠ "") (hname : name ≠ "")
    (hmsg : message ≠ "") (hph : phone ≠ "")
    (hreg : emailRegexTest toAddr = true)
    (hrender : render (adminTemplateData year toAddr subject name message phone) = some html) :
    handleSendEmail cfg render year transport (mkBody toAddr subject name message phone) =
      match transport (mkAdminMailOptions cfg html toAddr subject name message) with
      | .err _ =>
        (⟨500, false, some ("Failed to send email to admin"), none⟩,
         [mkAdminMailOptions cfg html toAddr subject name message])
      | .ok =>
        (⟨200, true, none, some ("Your message has been sent successfully")⟩,
         if toAddr ≠ cfg.adminEmail then
           [mkAdminMailOptions cfg html toAddr subject name message,
            mkUserMailOptions cfg toAddr subject name]
         else
           [mkAdminMailOptions cfg html toAddr subject name message]) := by
  cases htr : transport (mkAdminMailOptions cfg html toAddr subject name message) with
  | ok =>
    simp [handleSendEmail, mkBody, truthy, isString, asString, renderTemplate,
      hrender, hreg, hto, hsub, hname, hmsg, hph, sendEmail, htr, bne_iff_ne]
  | err m =>
    simp [handleSendEmail, mkBody, truthy, isString, asString, renderTemplate,
      hrender, hreg, hto, hsub, hname, hmsg, hph, sendEmail, htr]

/-- Characterization of the plain handler on a request that passes the
presence and email-format checks with all-string fields and whose
template renders: one send attempt, 500 on failure, 200 on success. -/
theorem handleSendEmailIdx_accepted (cfg : EnvCfgIdx)
    (render : TemplateDataIdx → Option String) (year : Nat)
    (transport : MailOptions → SendOutcome)
    (toAddr subject name message html : String)
    (hto : toAddr ≠ "") (hsub : subject ≠ "") (hname : name ≠ "") (hmsg : message ≠ "")
    (hreg : emailRegexTest toAddr = true)
    (hrender : render ⟨substring0 subject 100, substring0 name 50, year, "Your Company",
      substring0 message 2000⟩ = some html) :
    handleSendEmailIdx cfg render year transport (mkBodyIdx toAddr subject name message) =
      match transport (mkMailOptionsIdx cfg html toAddr subject name message) with
      | .err _ =>
        .responded ⟨500, false, some ("Failed to send email. Please try again later."), none⟩
          [mkMailOptionsIdx cfg html toAddr subject name message]
      | .ok =>
        .responded ⟨200, true, none, some ("Your message has been sent successfully")⟩
          [mkMailOptionsIdx cfg html toAddr subject name message] := by
  cases htr : transport (mkMailOptionsIdx cfg html toAddr subject name message) with
  | ok =>
    simp [handleSendEmailIdx, mkBodyIdx, truthy, isString, asString, jsToString,
      renderTemplateIdx, hrender, hreg, hto, hsub, hname, hmsg, sendEmail, htr]
  | err m =>
    simp [handleSendEmailIdx, mkBodyIdx, truthy, isString, asString, jsToString,
      renderTemplateIdx, hrender, hreg, hto, hsub, hname, hmsg, sendEmail, htr]

/-- A concrete configuration for witnesses. -/
def sampleCfg : EnvCfg := ⟨"service@lucidchemical.com", "admin@lucidchemical.com"⟩

/-- A concrete plain-variant configuration with an admin address set. -/
def sampleCfgIdx : EnvCfgIdx := ⟨"service@lucidchemical.com", some ("admin@lucidchemical.com")⟩

/-- A renderer that always succeeds with a fixed HTML string. -/
def okRender : TemplateData → Option String := fun _ => some ("<html>rendered</html>")

/-- A plain-variant renderer that always succeeds. -/
def okRenderIdx : TemplateDataIdx → Option String := fun _ => some ("<html>rendered</html>")

/-- A transport that delivers every message. -/
def okTransport : MailOptions → SendOutcome := fun _ => .ok

/-- A transport that throws on every message. -/
def failTransport : MailOptions → SendOutcome := fun _ => .err ("connection refused")

/-- A transport that delivers mail addressed to the sample admin and
throws on everything else (so the user-confirmation send fails). -/
def adminOnlyTransport : MailOptions → SendOutcome :=
  fun o => if o.toAddr == "admin@lucidchemical.com" then .ok else .err ("mailbox unavailable")

/-- C1: for every request that passes validation (and renders), if the
admin-notification send reports failure the handler responds 500 with
`success:false`, and the send list contains only that one attempt — the
user-confirmation send never happens. -/
theorem adminSendFailure_responds500_noSecondSend (cfg : EnvCfg)
    (render : TemplateData → Option String) (year : Nat)
    (transport : MailOptions → SendOutcome)
    (toAddr subject name message phone html emsg : String)
    (hto : toAddr ≠ "") (hsub : subject ≠ "") (hname : name ≠ "")
    (hmsg : message ≠ "") (hph : phone ≠ "")
    (hreg : emailRegexTest toAddr = true)
    (hrender : render (adminTemplateData year toAddr subject name message phone) = some html)
    (hfail : transport (mkAdminMailOptions cfg html toAddr subject name message) = .err emsg) :
    handleSendEmail cfg render year transport (mkBody toAddr subject name message phone) =
      (⟨500, false, some ("Failed to send email to admin"), none⟩,
       [mkAdminMailOptions cfg html toAddr subject name message]) := by
  rw [handleSendEmail_accepted cfg render year transport toAddr subject name message phone
    html hto hsub hname hmsg hph hreg hrender, hfail]

/-- C1 witness: a concrete valid request against a failing transport. -/
theorem adminSendFailure_responds500_noSecondSend_witness :
    handleSendEmail sampleCfg okRender 2025 failTransport
        (mkBody ("a@b.com") ("Hi") ("Sam") ("Hello there") ("123")) =
      (⟨500, false, some ("Failed to send email to admin"), none⟩,
       [mkAdminMailOptions sampleCfg ("<html>rendered</html>") ("a@b.com") ("Hi") ("Sam")
         ("Hello there")]) :=
  adminSendFailure_responds500_noSecondSend sampleCfg okRender 2025 failTransport
    ("a@b.com") ("Hi") ("Sam") ("Hello there") ("123") ("<html>rendered</html>")
    ("connection refused") (by decide) (by decide) (by decide) (by decide) (by decide)
    (by decide) rfl rfl

/-- C2: when `to` differs from the configured admin address and the admin
send succeeds, the handler responds 200 `success:true` for every
transport behaviour — whatever the user-confirmation send does — and both
sends are attempted. -/
theorem confirmationFailure_swallowed_responds200 (cfg : EnvCfg)
    (render : TemplateData → Option String) (year : Nat)
    (transport : MailOptions → SendOutcome)
    (toAddr subject name message phone html : String)
    (hto : toAddr ≠ "") (hsub : subject ≠ "") (hname : name ≠ "")
    (hmsg : message ≠ "") (hph : phone ≠ "")
    (hreg : emailRegexTest toAddr = true)
    (hrender : render (adminTemplateData year toAddr subject name message phone) = some html)
    (hok : transport (mkAdminMailOptions cfg html toAddr subject name message) = .ok)
    (hne : toAddr ≠ cfg.adminEmail) :
    handleSendEmail cfg render year transport (mkBody toAddr subject name message phone) =
      (⟨200, true, none, some ("Your message has been sent successfully")⟩,
       [mkAdminMailOptions cfg html toAddr subject name message,
        mkUserMailOptions cfg toAddr subject name]) := by
  rw [handleSendEmail_accepted cfg render year transport toAddr subject name message phone
    html hto hsub hname hmsg hph hreg hrender, hok]
  simp [hne]

/-- C2 witness: a transport that delivers to the admin but throws on the
user confirmation; the response is still 200 `success:true`. -/
theorem confirmationFailure_swallowed_responds200_witness :
    adminOnlyTransport (mkUserMailOptions sampleCfg ("a@b.com") ("Hi") ("Sam")) =
      .err ("mailbox unavailable") ∧
    handleSendEmail sampleCfg okRender 2025 adminOnlyTransport
        (mkBody ("a@b.com") ("Hi") ("Sam") ("Hello there") ("123")) =
      (⟨200, true, none, some ("Your message has been sent successfully")⟩,
       [mkAdminMailOptions sampleCfg ("<html>rendered</html>") ("a@b.com") ("Hi") ("Sam")
          ("Hello there"),
        mkUserMailOptions sampleCfg ("a@b.com") ("Hi") ("Sam")]) :=
  ⟨by decide,
   confirmationFailure_swallowed_responds200 sampleCfg okRender 2025 adminOnlyTransport
     ("a@b.com") ("Hi") ("Sam") ("Hello there") ("123") ("<html>rendered</html>")
     (by decide) (by decide) (by decide) (by decide) (by decide) (by decide) rfl
     (by decide) (by decide)⟩

/-- C7: when the submitted `to` equals the configured admin address and
the request is accepted, exactly one message is sent — the admin
notification — and no user confirmation is attempted. -/
theorem selfSubmission_singleSend (cfg : EnvCfg)
    (render : TemplateData → Option String) (year : Nat)
    (transport : MailOptions → SendOutcome)
    (toAddr subject name message phone html : String)
    (hto : toAddr ≠ "") (hsub : subject ≠ "") (hname : name ≠ "")
    (hmsg : message ≠ "") (hph : phone ≠ "")
    (hreg : emailRegexTest toAddr = true)
    (hrender : render (adminTemplateData year toAddr subject name message phone) = some html)
    (hok : transport (mkAdminMailOptions cfg html toAddr subject name message) = .ok)
    (heq : toAddr = cfg.adminEmail) :
    handleSendEmail cfg render year transport (mkBody toAddr subject name message phone) =
      (⟨200, true, none, some ("Your message has been sent successfully")⟩,
       [mkAdminMailOptions cfg html toAddr subject name message]) := by
  rw [handleSendEmail_accepted cfg render year transport toAddr subject name message phone
    html hto hsub hname hmsg hph hreg hrender, hok]
  simp [heq]

/-- C7 witness: the admin submits the form to their own address; one send. -/
theorem selfSubmission_singleSend_witness :
    handleSendEmail sampleCfg okRender 2025 okTransport
        (mkBody ("admin@lucidchemical.com") ("Hi") ("Sam") ("Hello there") ("123")) =
      (⟨200, true, none, some ("Your message has been sent successfully")⟩,
       [mkAdminMailOptions sampleCfg ("<html>rendered</html>") ("admin@lucidchemical.com")
          ("Hi") ("Sam") ("Hello there")]) :=
  selfSubmission_singleSend sampleCfg okRender 2025 okTransport
    ("admin@lucidchemical.com") ("Hi") ("Sam") ("Hello there") ("123")
    ("<html>rendered</html>") (by decide) (by decide) (by decide) (by decide) (by decide)
    (by decide) rfl rfl rfl

/-- C3: for every accepted request in either variant, every message in
the send trace is one of the composed messages, and every
subject/name/message string those compositions interpolate is the
`substring0`-truncation of the submitted value to 100/50/2000
characters, whose length is bounded accordingly. -/
theorem outgoingMessages_useTruncatedFields (cfg : EnvCfg)
    (render : TemplateData → Option String) (year : Nat)
    (transport : MailOptions → SendOutcome)
    (cfgI : EnvCfgIdx) (renderI : TemplateDataIdx → Option String) (yearI : Nat)
    (transportI : MailOptions → SendOutcome)
    (toAddr subject name message phone html htmlI : String)
    (hto : toAddr ≠ "") (hsub : subject ≠ "") (hname : name ≠ "")
    (hmsg : message ≠ "") (hph : phone ≠ "")
    (hreg : emailRegexTest toAddr = true)
    (hrender : render (adminTemplateData year toAddr subject name message phone) = some html)
    (hrenderI : renderI ⟨substring0 subject 100, substring0 name 50, yearI, "Your Company",
      substring0 message 2000⟩ = some htmlI) :
    ((handleSendEmail cfg render year transport (mkBody toAddr subject name message phone)).2 =
        [mkAdminMailOptions cfg html toAddr subject name message] ∨
     (handleSendEmail cfg render year transport (mkBody toAddr subject name message phone)).2 =
        [mkAdminMailOptions cfg html toAddr subject name message,
         mkUserMailOptions cfg toAddr subject name]) ∧
    (mkAdminMailOptions cfg html toAddr subject name message).subject =
      "New Inquiry: " ++ substring0 subject 100 ∧
    (mkAdminMailOptions cfg html toAddr subject name message).replyTo =
      some ("\"" ++ substring0 name 50 ++ "\" <" ++ toAddr ++ ">") ∧
    (mkAdminMailOptions cfg html toAddr subject name message).text =
      adminTextOf toAddr subject name message ∧
    adminTextOf toAddr subject name message =
      "New message from " ++ substring0 name 50 ++ " (" ++ toAddr ++ ")\n\n" ++
      "Subject: " ++ substring0 subject 100 ++ "\n\n" ++
      substring0 message 2000 ++ "\n\n" ++
      "---\nThis message was sent via your website contact form" ∧
    (adminTemplateData year toAddr subject name message phone).subject =
      substring0 subject 100 ∧
    (adminTemplateData year toAddr subject name message phone).name = substring0 name 50 ∧
    (adminTemplateData year toAddr subject name message phone).message =
      substring0 message 2000 ∧
    (mkUserMailOptions cfg toAddr subject name).subject =
      "We\x27ve received your message about " ++ substring0 subject 100 ∧
    (mkUserMailOptions cfg toAddr subject name).text = userTextOf subject name ∧
    (mkUserMailOptions cfg toAddr subject name).html =
      confirmationEmail (substring0 name 50) (substring0 subject 100) ∧
    (handleSendEmailIdx cfgI renderI yearI transportI
        (mkBodyIdx toAddr subject name message) =
      .responded ⟨500, false, some ("Failed to send email. Please try again later."), none⟩
        [mkMailOptionsIdx cfgI htmlI toAddr subject name message] ∨
     handleSendEmailIdx cfgI renderI yearI transportI
        (mkBodyIdx toAddr subject name message) =
      .responded ⟨200, true, none, some ("Your message has been sent successfully")⟩
        [mkMailOptionsIdx cfgI htmlI toAddr subject name message]) ∧
    (mkMailOptionsIdx cfgI htmlI toAddr subject name message).subject =
      "Website Contact: " ++ substring0 subject 100 ∧
    (mkMailOptionsIdx cfgI htmlI toAddr subject name message).text =
      idxTextOf toAddr subject name message ∧
    idxTextOf toAddr subject name message =
      "New message from " ++ substring0 name 50 ++ " (" ++ toAddr ++ ")\n\n" ++
      "Subject: " ++ substring0 subject 100 ++ "\n\n" ++
      substring0 message 2000 ++ "\n\n" ++
      "---\nThis message was sent via your website contact form" ∧
    (substring0 subject 100).length ≤ 100 ∧
    (substring0 name 50).length ≤ 50 ∧
    (substring0 message 2000).length ≤ 2000 := by
  refine ⟨?_, rfl, rfl, rfl, rfl, rfl, rfl, rfl, rfl, rfl, rfl, ?_, rfl, rfl, rfl,
    substring0_length_le subject 100, substring0_length_le name 50,
    substring0_length_le message 2000⟩
  · rw [handleSendEmail_accepted cfg render year transport toAddr subject name message
      phone html hto hsub hname hmsg hph hreg hrender]
    cases transport (mkAdminMailOptions cfg html toAddr subject name message) with
    | ok =>
      by_cases h : toAddr = cfg.adminEmail
      · left
        simp [h]
      · right
        simp [h]
    | err m =>
      left
      rfl
  · rw [handleSendEmailIdx_accepted cfgI renderI yearI transportI toAddr subject name
      message htmlI hto hsub hname hmsg hreg hrenderI]
    cases transportI (mkMailOptionsIdx cfgI htmlI toAddr subject name message) with
    | ok =>
      right
      rfl
    | err m =>
      left
      rfl

/-- C3 witness: a concrete submission in both variants; the composed
messages carry the truncated values. -/
theorem outgoingMessages_useTruncatedFields_witness :
    ((handleSendEmail sampleCfg okRender 2025 okTransport
        (mkBody ("a@b.com") ("Hi") ("Sam") ("Hello there") ("123"))).2 =
      [mkAdminMailOptions sampleCfg ("<html>rendered</html>") ("a@b.com") ("Hi") ("Sam")
         ("Hello there")] ∨
     (handleSendEmail sampleCfg okRender 2025 okTransport
        (mkBody ("a@b.com") ("Hi") ("Sam") ("Hello there") ("123"))).2 =
      [mkAdminMailOptions sampleCfg ("<html>rendered</html>") ("a@b.com") ("Hi") ("Sam")
         ("Hello there"),
       mkUserMailOptions sampleCfg ("a@b.com") ("Hi") ("Sam")]) ∧
    (mkAdminMailOptions sampleCfg ("<html>rendered</html>") ("a@b.com") ("Hi") ("Sam")
       ("Hello there")).subject = "New Inquiry: " ++ substring0 ("Hi") 100 ∧
    (mkAdminMailOptions sampleCfg ("<html>rendered</html>") ("a@b.com") ("Hi") ("Sam")
       ("Hello there")).replyTo =
      some ("\"" ++ substring0 ("Sam") 50 ++ "\" <" ++ "a@b.com" ++ ">") ∧
    (mkAdminMailOptions sampleCfg ("<html>rendered</html>") ("a@b.com") ("Hi") ("Sam")
       ("Hello there")).text = adminTextOf ("a@b.com") ("Hi") ("Sam") ("Hello there") ∧
    adminTextOf ("a@b.com") ("Hi") ("Sam") ("Hello there") =
      "New message from " ++ substring0 ("Sam") 50 ++ " (" ++ "a@b.com" ++ ")\n\n" ++
      "Subject: " ++ substring0 ("Hi") 100 ++ "\n\n" ++
      substring0 ("Hello there") 2000 ++ "\n\n" ++
      "---\nThis message was sent via your website contact form" ∧
    (adminTemplateData 2025 ("a@b.com") ("Hi") ("Sam") ("Hello there") ("123")).subject =
      substring0 ("Hi") 100 ∧
    (adminTemplateData 2025 ("a@b.com") ("Hi") ("Sam") ("Hello there") ("123")).name =
      substring0 ("Sam") 50 ∧
    (adminTemplateData 2025 ("a@b.com") ("Hi") ("Sam") ("Hello there") ("123")).message =
      substring0 ("Hello there") 2000 ∧
    (mkUserMailOptions sampleCfg ("a@b.com") ("Hi") ("Sam")).subject =
      "We\x27ve received your message about " ++ substring0 ("Hi") 100 ∧
    (mkUserMailOptions sampleCfg ("a@b.com") ("Hi") ("Sam")).text =
      userTextOf ("Hi") ("Sam") ∧
    (mkUserMailOptions sampleCfg ("a@b.com") ("Hi") ("Sam")).html =
      confirmationEmail (substring0 ("Sam") 50) (substring0 ("Hi") 100) ∧
    (handleSendEmailIdx sampleCfgIdx okRenderIdx 2025 okTransport
        (mkBodyIdx ("a@b.com") ("Hi") ("Sam") ("Hello there")) =
      .responded ⟨500, false, some ("Failed to send email. Please try again later."), none⟩
        [mkMailOptionsIdx sampleCfgIdx ("<html>rendered</html>") ("a@b.com") ("Hi") ("Sam")
          ("Hello there")] ∨
     handleSendEmailIdx sampleCfgIdx okRenderIdx 2025 okTransport
        (mkBodyIdx ("a@b.com") ("Hi") ("Sam") ("Hello there")) =
      .responded ⟨200, true, none, some ("Your message has been sent successfully")⟩
        [mkMailOptionsIdx sampleCfgIdx ("<html>rendered</html>") ("a@b.com") ("Hi") ("Sam")
          ("Hello there")]) ∧
    (mkMailOptionsIdx sampleCfgIdx ("<html>rendered</html>") ("a@b.com") ("Hi") ("Sam")
       ("Hello there")).subject = "Website Contact: " ++ substring0 ("Hi") 100 ∧
    (mkMailOptionsIdx sampleCfgIdx ("<html>rendered</html>") ("a@b.com") ("Hi") ("Sam")
       ("Hello there")).text = idxTextOf ("a@b.com") ("Hi") ("Sam") ("Hello there") ∧
    idxTextOf ("a@b.com") ("Hi") ("Sam") ("Hello there") =
      "New message from " ++ substring0 ("Sam") 50 ++ " (" ++ "a@b.com" ++ ")\n\n" ++
      "Subject: " ++ substring0 ("Hi") 100 ++ "\n\n" ++
      substring0 ("Hello there") 2000 ++ "\n\n" ++
      "---\nThis message was sent via your website contact form" ∧
    (substring0 ("Hi") 100).length ≤ 100 ∧
    (substring0 ("Sam") 50).length ≤ 50 ∧
    (substring0 ("Hello there") 2000).length ≤ 2000 :=
  outgoingMessages_useTruncatedFields sampleCfg okRender 2025 okTransport
    sampleCfgIdx okRenderIdx 2025 okTransport
    ("a@b.com") ("Hi") ("Sam") ("Hello there") ("123") ("<html>rendered</html>")
    ("<html>rendered</html>")
    (by decide) (by decide) (by decide) (by decide) (by decide) (by decide) rfl rfl

/-- C4: in both variants, a request in which any required field is
absent (`undefined`) or the empty string is answered 400 `success:false`
with no send attempt (`phone` is required only in the strict variant). -/
theorem missingField_rejected400_noSend (cfg : EnvCfg)
    (render : TemplateData → Option String) (year : Nat)
    (transport : MailOptions → SendOutcome) (b : ReqBody)
    (cfgI : EnvCfgIdx) (renderI : TemplateDataIdx → Option String) (yearI : Nat)
    (transportI : MailOptions → SendOutcome) (bI : ReqBodyIdx)
    (h : b.toAddr = .vundefined ∨ b.toAddr = .vstr "" ∨
         b.subject = .vundefined ∨ b.subject = .vstr "" ∨
         b.name = .vundefined ∨ b.name = .vstr "" ∨
         b.message = .vundefined ∨ b.message = .vstr "" ∨
         b.phone = .vundefined ∨ b.phone = .vstr "")
    (hI : bI.toAddr = .vundefined ∨ bI.toAddr = .vstr "" ∨
          bI.subject = .vundefined ∨ bI.subject = .vstr "" ∨
          bI.name = .vundefined ∨ bI.name = .vstr "" ∨
          bI.message = .vundefined ∨ bI.message = .vstr "") :
    handleSendEmail cfg render year transport b =
      (⟨400, false,
        some ("All fields are required: recipient email, subject, name, and message"),
        none⟩, []) ∧
    handleSendEmailIdx cfgI renderI yearI transportI bI =
      .responded
        ⟨400, false,
         some ("All fields are required: recipient email, subject, name, and message"),
         none⟩ [] := by
  constructor
  · rcases h with h | h | h | h | h | h | h | h | h | h <;>
      simp [handleSendEmail, truthy, h]
  · rcases hI with h | h | h | h | h | h | h | h <;>
      simp [handleSendEmailIdx, truthy, h]

/-- C4 witness: a strict-variant body without `phone` and a plain-variant
body with an empty `message`. -/
theorem missingField_rejected400_noSend_witness :
    handleSendEmail sampleCfg okRender 2025 okTransport
        ⟨.vstr ("a@b.com"), .vstr ("Hi"), .vstr ("Sam"), .vstr ("Hello"), .vundefined⟩ =
      (⟨400, false,
        some ("All fields are required: recipient email, subject, name, and message"),
        none⟩, []) ∧
    handleSendEmailIdx sampleCfgIdx okRenderIdx 2025 okTransport
        ⟨.vstr ("a@b.com"), .vstr ("Hi"), .vstr ("Sam"), .vstr ""⟩ =
      .responded
        ⟨400, false,
         some ("All fields are required: recipient email, subject, name, and message"),
         none⟩ [] :=
  missingField_rejected400_noSend sampleCfg okRender 2025 okTransport
    ⟨.vstr ("a@b.com"), .vstr ("Hi"), .vstr ("Sam"), .vstr ("Hello"), .vundefined⟩
    sampleCfgIdx okRenderIdx 2025 okTransport
    ⟨.vstr ("a@b.com"), .vstr ("Hi"), .vstr ("Sam"), .vstr ""⟩
    (by decide) (by decide)

/-- C5: in both variants, a request with all required fields present as
nonempty strings whose `to` fails the email regex is answered 400
`success:false` with error `Please provide a valid email address` and no
send attempt. -/
theorem invalidEmail_rejected400_noSend (cfg : EnvCfg)
    (render : TemplateData → Option String) (year : Nat)
    (transport : MailOptions → SendOutcome)
    (cfgI : EnvCfgIdx) (renderI : TemplateDataIdx → Option String) (yearI : Nat)
    (transportI : MailOptions → SendOutcome)
    (toAddr subject name message phone : String)
    (hto : toAddr ≠ "") (hsub : subject ≠ "") (hname : name ≠ "")
    (hmsg : message ≠ "") (hph : phone ≠ "")
    (hreg : emailRegexTest toAddr = false) :
    handleSendEmail cfg render year transport (mkBody toAddr subject name message phone) =
      (⟨400, false, some ("Please provide a valid email address"), none⟩, []) ∧
    handleSendEmailIdx cfgI renderI yearI transportI (mkBodyIdx toAddr subject name message) =
      .responded ⟨400, false, some ("Please provide a valid email address"), none⟩ [] := by
  constructor
  · simp [handleSendEmail, mkBody, truthy, isString, asString, hto, hsub, hname, hmsg,
      hph, hreg]
  · simp [handleSendEmailIdx, mkBodyIdx, truthy, isString, jsToString, hto, hsub, hname,
      hmsg, hreg]

/-- C5 witness: the spec scenario `to:"not-an-email"`. -/
theorem invalidEmail_rejected400_noSend_witness :
    handleSendEmail sampleCfg okRender 2025 okTransport
        (mkBody ("not-an-email") ("Hi") ("Sam") ("Hello") ("123")) =
      (⟨400, false, some ("Please provide a valid email address"), none⟩, []) ∧
    handleSendEmailIdx sampleCfgIdx okRenderIdx 2025 okTransport
        (mkBodyIdx ("not-an-email") ("Hi") ("Sam") ("Hello")) =
      .responded ⟨400, false, some ("Please provide a valid email address"), none⟩ [] :=
  invalidEmail_rejected400_noSend sampleCfg okRender 2025 okTransport
    sampleCfgIdx okRenderIdx 2025 okTransport
    ("not-an-email") ("Hi") ("Sam") ("Hello") ("123")
    (by decide) (by decide) (by decide) (by decide) (by decide) (by decide)

/-- C6 counterexample: in the plain variant (`src/index.js`, one of the
two handlers the claim quantifies over) a present non-string `subject`
(the number 5) with otherwise valid fields does not produce a 400
response: `subject.substring` throws outside the `try` block and no
response is sent at all (and no mail either). -/
theorem typeCheck_claim_counterexample :
    truthy (JsValue.vnum 5) = true ∧ isString (JsValue.vnum 5) = false ∧
    handleSendEmailIdx sampleCfgIdx okRenderIdx 2025 okTransport
        ⟨.vstr ("a@b.com"), .vnum 5, .vstr ("Sam"), .vstr ("Hello")⟩ =
      .crashed [] := by
  refine ⟨rfl, rfl, ?_⟩
  decide

/-- C6 (amended): in the strict variant (`src/unnamed/part_000`), every
request in which some field is not a string — whether or not the others
are present — is answered with status 400, `success:false`, and no send
attempt. -/
theorem nonStringField_rejected400_strict (cfg : EnvCfg)
    (render : TemplateData → Option String) (year : Nat)
    (transport : MailOptions → SendOutcome) (b : ReqBody)
    (h : isString b.toAddr = false ∨ isString b.subject = false ∨
         isString b.name = false ∨ isString b.message = false ∨
         isString b.phone = false) :
    (handleSendEmail cfg render year transport b).1.status = 400 ∧
    (handleSendEmail cfg render year transport b).1.success = false ∧
    (handleSendEmail cfg render year transport b).2 = [] := by
  unfold handleSendEmail
  by_cases hp : (!truthy b.toAddr || !truthy b.subject || !truthy b.name
      || !truthy b.message || !truthy b.phone) = true
  · simp [hp]
  · have ht : (!isString b.toAddr || !isString b.subject || !isString b.name
        || !isString b.message || !isString b.phone) = true := by
      rcases h with h | h | h | h | h <;> simp [h]
    simp [hp, ht]

/-- C6 (amended) witness: a numeric `subject` in the strict variant. -/
theorem nonStringField_rejected400_strict_witness :
    (handleSendEmail sampleCfg okRender 2025 okTransport
        ⟨.vstr ("a@b.com"), .vnum 5, .vstr ("Sam"), .vstr ("Hello"), .vstr ("123")⟩).1.status
      = 400 ∧
    (handleSendEmail sampleCfg okRender 2025 okTransport
        ⟨.vstr ("a@b.com"), .vnum 5, .vstr ("Sam"), .vstr ("Hello"), .vstr ("123")⟩).1.success
      = false ∧
    (handleSendEmail sampleCfg okRender 2025 okTransport
        ⟨.vstr ("a@b.com"), .vnum 5, .vstr ("Sam"), .vstr ("Hello"), .vstr ("123")⟩).2
      = [] :=
  nonStringField_rejected400_strict sampleCfg okRender 2025 okTransport
    ⟨.vstr ("a@b.com"), .vnum 5, .vstr ("Sam"), .vstr ("Hello"), .vstr ("123")⟩
    (by decide)

/-- C8 counterexample: on an accepted request with `to` different from
the admin address, the user-confirmation message is sent and carries no
headers at all — in particular not `X-Priority: 1` — so not every
outgoing message carries the elevated-priority headers. -/
theorem priorityHeaders_claim_counterexample :
    (handleSendEmail sampleCfg okRender 2025 okTransport
        (mkBody ("a@b.com") ("Hi") ("Sam") ("Hello there") ("123"))).2 =
      [mkAdminMailOptions sampleCfg ("<html>rendered</html>") ("a@b.com") ("Hi") ("Sam")
         ("Hello there"),
       mkUserMailOptions sampleCfg ("a@b.com") ("Hi") ("Sam")] ∧
    (mkUserMailOptions sampleCfg ("a@b.com") ("Hi") ("Sam")).headers = [] := by
  constructor
  · rw [handleSendEmail_accepted sampleCfg okRender 2025 okTransport ("a@b.com") ("Hi")
      ("Sam") ("Hello there") ("123") ("<html>rendered</html>") (by decide) (by decide)
      (by decide) (by decide) (by decide) (by decide) rfl]
    simp [okTransport, sampleCfg]
  · rfl

/-- C8 (amended): on every accepted request, the admin notification of
either variant always carries `X-Priority: 1` and
`X-MSMail-Priority: High`, while the strict variant's user-confirmation
message (when sent) carries no extra headers. -/
theorem priorityHeaders_adminOnly (cfg : EnvCfg)
    (render : TemplateData → Option String) (year : Nat)
    (transport : MailOptions → SendOutcome)
    (cfgI : EnvCfgIdx) (renderI : TemplateDataIdx → Option String) (yearI : Nat)
    (transportI : MailOptions → SendOutcome)
    (toAddr subject name message phone html htmlI : String)
    (hto : toAddr ≠ "") (hsub : subject ≠ "") (hname : name ≠ "")
    (hmsg : message ≠ "") (hph : phone ≠ "")
    (hreg : emailRegexTest toAddr = true)
    (hrender : render (adminTemplateData year toAddr subject name message phone) = some html)
    (hrenderI : renderI ⟨substring0 subject 100, substring0 name 50, yearI, "Your Company",
      substring0 message 2000⟩ = some htmlI) :
    ((handleSendEmail cfg render year transport (mkBody toAddr subject name message phone)).2 =
        [mkAdminMailOptions cfg html toAddr subject name message] ∨
     (handleSendEmail cfg render year transport (mkBody toAddr subject name message phone)).2 =
        [mkAdminMailOptions cfg html toAddr subject name message,
         mkUserMailOptions cfg toAddr subject name]) ∧
    (mkAdminMailOptions cfg html toAddr subject name message).headers =
      [("X-Priority", "1"), ("X-MSMail-Priority", "High")] ∧
    (mkUserMailOptions cfg toAddr subject name).headers = [] ∧
    (handleSendEmailIdx cfgI renderI yearI transportI
        (mkBodyIdx toAddr subject name message) =
      .responded ⟨500, false, some ("Failed to send email. Please try again later."), none⟩
        [mkMailOptionsIdx cfgI htmlI toAddr subject name message] ∨
     handleSendEmailIdx cfgI renderI yearI transportI
        (mkBodyIdx toAddr subject name message) =
      .responded ⟨200, true, none, some ("Your message has been sent successfully")⟩
        [mkMailOptionsIdx cfgI htmlI toAddr subject name message]) ∧
    (mkMailOptionsIdx cfgI htmlI toAddr subject name message).headers =
      [("X-Priority", "1"), ("X-MSMail-Priority", "High")] := by
  refine ⟨?_, rfl, rfl, ?_, rfl⟩
  · rw [handleSendEmail_accepted cfg render year transport toAddr subject name message
      phone html hto hsub hname hmsg hph hreg hrender]
    cases transport (mkAdminMailOptions cfg html toAddr subject name message) with
    | ok =>
      by_cases h : toAddr = cfg.adminEmail
      · left
        simp [h]
      · right
        simp [h]
    | err m =>
      left
      rfl
  · rw [handleSendEmailIdx_accepted cfgI renderI yearI transportI toAddr subject name
      message htmlI hto hsub hname hmsg hreg hrenderI]
    cases transportI (mkMailOptionsIdx cfgI htmlI toAddr subject name message) with
    | ok =>
      right
      rfl
    | err m =>
      left
      rfl

/-- C8 (amended) witness: concrete accepted request in both variants;
each admin message carries both priority headers, the confirmation
message none. -/
theorem priorityHeaders_adminOnly_witness :
    ((handleSendEmail sampleCfg okRender 2025 okTransport
        (mkBody ("a@b.com") ("Hi") ("Sam") ("Hello there") ("123"))).2 =
      [mkAdminMailOptions sampleCfg ("<html>rendered</html>") ("a@b.com") ("Hi") ("Sam")
         ("Hello there")] ∨
     (handleSendEmail sampleCfg okRender 2025 okTransport
        (mkBody ("a@b.com") ("Hi") ("Sam") ("Hello there") ("123"))).2 =
      [mkAdminMailOptions sampleCfg ("<html>rendered</html>") ("a@b.com") ("Hi") ("Sam")
         ("Hello there"),
       mkUserMailOptions sampleCfg ("a@b.com") ("Hi") ("Sam")]) ∧
    (mkAdminMailOptions sampleCfg ("<html>rendered</html>") ("a@b.com") ("Hi") ("Sam")
       ("Hello there")).headers = [("X-Priority", "1"), ("X-MSMail-Priority", "High")] ∧
    (mkUserMailOptions sampleCfg ("a@b.com") ("Hi") ("Sam")).headers = [] ∧
    (handleSendEmailIdx sampleCfgIdx okRenderIdx 2025 okTransport
        (mkBodyIdx ("a@b.com") ("Hi") ("Sam") ("Hello there")) =
      .responded ⟨500, false, some ("Failed to send email. Please try again later."), none⟩
        [mkMailOptionsIdx sampleCfgIdx ("<html>rendered</html>") ("a@b.com") ("Hi") ("Sam")
          ("Hello there")] ∨
     handleSendEmailIdx sampleCfgIdx okRenderIdx 2025 okTransport
        (mkBodyIdx ("a@b.com") ("Hi") ("Sam") ("Hello there")) =
      .responded ⟨200, true, none, some ("Your message has been sent successfully")⟩
        [mkMailOptionsIdx sampleCfgIdx ("<html>rendered</html>") ("a@b.com") ("Hi") ("Sam")
          ("Hello there")]) ∧
    (mkMailOptionsIdx sampleCfgIdx ("<html>rendered</html>") ("a@b.com") ("Hi") ("Sam")
       ("Hello there")).headers = [("X-Priority", "1"), ("X-MSMail-Priority", "High")] :=
  priorityHeaders_adminOnly sampleCfg okRender 2025 okTransport
    sampleCfgIdx okRenderIdx 2025 okTransport
    ("a@b.com") ("Hi") ("Sam") ("Hello there") ("123") ("<html>rendered</html>")
    ("<html>rendered</html>")
    (by decide) (by decide) (by decide) (by decide) (by decide) (by decide) rfl rfl

/-- C9: in both variants, on an accepted request the admin notification
(the first send) is addressed to the configured admin address — a value
built from configuration only, not from the submitted `to` — while the
submitted `to` goes into the reply-to field; the sender identity is also
fixed from configuration.  For the plain variant this holds whenever an
admin address is actually configured (nonempty), which its
`ADMIN_EMAIL || to` fallback otherwise overrides. -/
theorem adminRecipient_fixed_replyToSubmitter (cfg : EnvCfg)
    (render : TemplateData → Option String) (year : Nat)
    (transport : MailOptions → SendOutcome)
    (cfgI : EnvCfgIdx) (renderI : TemplateDataIdx → Option String) (yearI : Nat)
    (transportI : MailOptions → SendOutcome)
    (toAddr subject name message phone html htmlI a : String)
    (hto : toAddr ≠ "") (hsub : subject ≠ "") (hname : name ≠ "")
    (hmsg : message ≠ "") (hph : phone ≠ "")
    (hreg : emailRegexTest toAddr = true)
    (hrender : render (adminTemplateData year toAddr subject name message phone) = some html)
    (hrenderI : renderI ⟨substring0 subject 100, substring0 name 50, yearI, "Your Company",
      substring0 message 2000⟩ = some htmlI)
    (hadm : cfgI.adminEmail = some a) (ha : a ≠ "") :
    (handleSendEmail cfg render year transport
        (mkBody toAddr subject name message phone)).2.head? =
      some (mkAdminMailOptions cfg html toAddr subject name message) ∧
    (mkAdminMailOptions cfg html toAddr subject name message).toAddr = cfg.adminEmail ∧
    (mkAdminMailOptions cfg html toAddr subject name message).replyTo =
      some ("\"" ++ substring0 name 50 ++ "\" <" ++ toAddr ++ ">") ∧
    (mkAdminMailOptions cfg html toAddr subject name message).from_ =
      "\"Lucid Petro Chemical\" <" ++ cfg.emailUsername ++ ">" ∧
    (handleSendEmailIdx cfgI renderI yearI transportI
        (mkBodyIdx toAddr subject name message) =
      .responded ⟨500, false, some ("Failed to send email. Please try again later."), none⟩
        [mkMailOptionsIdx cfgI htmlI toAddr subject name message] ∨
     handleSendEmailIdx cfgI renderI yearI transportI
        (mkBodyIdx toAddr subject name message) =
      .responded ⟨200, true, none, some ("Your message has been sent successfully")⟩
        [mkMailOptionsIdx cfgI htmlI toAddr subject name message]) ∧
    (mkMailOptionsIdx cfgI htmlI toAddr subject name message).toAddr = a ∧
    (mkMailOptionsIdx cfgI htmlI toAddr subject name message).replyTo = some toAddr := by
  refine ⟨?_, rfl, rfl, rfl, ?_, ?_, rfl⟩
  · rw [handleSendEmail_accepted cfg render year transport toAddr subject name message
      phone html hto hsub hname hmsg hph hreg hrender]
    cases transport (mkAdminMailOptions cfg html toAddr subject name message) with
    | ok =>
      by_cases h : toAddr = cfg.adminEmail
      · simp [h]
      · simp [h]
    | err m => rfl
  · rw [handleSendEmailIdx_accepted cfgI renderI yearI transportI toAddr subject name
      message htmlI hto hsub hname hmsg hreg hrenderI]
    cases transportI (mkMailOptionsIdx cfgI htmlI toAddr subject name message) with
    | ok => right; rfl
    | err m => left; rfl
  · simp [mkMailOptionsIdx, envOr, hadm, ha]

/-- C9 witness: concrete accepted request in both variants with the
sample configurations. -/
theorem adminRecipient_fixed_replyToSubmitter_witness :
    (handleSendEmail sampleCfg okRender 2025 okTransport
        (mkBody ("a@b.com") ("Hi") ("Sam") ("Hello there") ("123"))).2.head? =
      some (mkAdminMailOptions sampleCfg ("<html>rendered</html>") ("a@b.com") ("Hi")
        ("Sam") ("Hello there")) ∧
    (mkAdminMailOptions sampleCfg ("<html>rendered</html>") ("a@b.com") ("Hi") ("Sam")
       ("Hello there")).toAddr = sampleCfg.adminEmail ∧
    (mkAdminMailOptions sampleCfg ("<html>rendered</html>") ("a@b.com") ("Hi") ("Sam")
       ("Hello there")).replyTo =
      some ("\"" ++ substring0 ("Sam") 50 ++ "\" <" ++ "a@b.com" ++ ">") ∧
    (mkAdminMailOptions sampleCfg ("<html>rendered</html>") ("a@b.com") ("Hi") ("Sam")
       ("Hello there")).from_ =
      "\"Lucid Petro Chemical\" <" ++ sampleCfg.emailUsername ++ ">" ∧
    (handleSendEmailIdx sampleCfgIdx okRenderIdx 2025 okTransport
        (mkBodyIdx ("a@b.com") ("Hi") ("Sam") ("Hello there")) =
      .responded ⟨500, false, some ("Failed to send email. Please try again later."), none⟩
        [mkMailOptionsIdx sampleCfgIdx ("<html>rendered</html>") ("a@b.com") ("Hi") ("Sam")
          ("Hello there")] ∨
     handleSendEmailIdx sampleCfgIdx okRenderIdx 2025 okTransport
        (mkBodyIdx ("a@b.com") ("Hi") ("Sam") ("Hello there")) =
      .responded ⟨200, true, none, some ("Your message has been sent successfully")⟩
        [mkMailOptionsIdx sampleCfgIdx ("<html>rendered</html>") ("a@b.com") ("Hi") ("Sam")
          ("Hello there")]) ∧
    (mkMailOptionsIdx sampleCfgIdx ("<html>rendered</html>") ("a@b.com") ("Hi") ("Sam")
       ("Hello there")).toAddr = "admin@lucidchemical.com" ∧
    (mkMailOptionsIdx sampleCfgIdx ("<html>rendered</html>") ("a@b.com") ("Hi") ("Sam")
       ("Hello there")).replyTo = some ("a@b.com") :=
  adminRecipient_fixed_replyToSubmitter sampleCfg okRender 2025 okTransport
    sampleCfgIdx okRenderIdx 2025 okTransport
    ("a@b.com") ("Hi") ("Sam") ("Hello there") ("123") ("<html>rendered</html>")
    ("<html>rendered</html>") ("admin@lucidchemical.com")
    (by decide) (by decide) (by decide) (by decide) (by decide) (by decide) rfl rfl rfl
    (by decide)

/-- C10: `sendEmail` maps every transport outcome to a total
`{success, error}` record without rethrowing: `{success: true}` when the
transport delivers and `{success: false, error: msg}` when it throws. -/
theorem sendEmail_total_outcomes (transport : MailOptions → SendOutcome)
    (opts : MailOptions) :
    (transport opts = .ok → sendEmail transport opts = ⟨true, none⟩) ∧
    (∀ m, transport opts = .err m → sendEmail transport opts = ⟨false, some m⟩) := by
  constructor
  · intro h
    simp [sendEmail, h]
  · intro m h
    simp [sendEmail, h]

/-- C10 witness: both outcomes on a concrete message. -/
theorem sendEmail_total_outcomes_witness :
    sendEmail okTransport (mkUserMailOptions sampleCfg ("a@b.com") ("Hi") ("Sam")) =
      ⟨true, none⟩ ∧
    sendEmail failTransport (mkUserMailOptions sampleCfg ("a@b.com") ("Hi") ("Sam")) =
      ⟨false, some ("connection refused")⟩ :=
  ⟨(sendEmail_total_outcomes okTransport
      (mkUserMailOptions sampleCfg ("a@b.com") ("Hi") ("Sam"))).1 rfl,
   (sendEmail_total_outcomes failTransport
      (mkUserMailOptions sampleCfg ("a@b.com") ("Hi") ("Sam"))).2 ("connection refused") rfl⟩
